import Mathlib

/-!
Shallow embedding of the UnrealInventory component
(src/Public/Inventory.h and src/Private/Inventory.cpp).

The C++ component `UInventory` owns two pieces of state:
  - `TSet<FString> PossibleStats`          (the stat registry)
  - `TMap<FString, FInventoryItem> Inventory` (the item catalog + live state)

We model `FString` as `String`, `int` as `Int`, `UTexture2D*` as `Option Nat`
(an opaque handle, `none` for `nullptr`), `TSet<FString>` as a `List String`
(insertion guarded by a membership check, exactly as the code does), and
`TMap<FString, FInventoryItem>` as an association list
`List (String × FInventoryItem)` whose insertions are guarded by `Contains`
checks, so keys stay unique.  Each mutating member function becomes a pure
function `UInventory → args → InventoryError × UInventory`; each read query
returns its result paired with the (unchanged) state.
-/

/-- The `InventoryError` enum from src/Public/Inventory.h (lines 11-25). -/
inductive InventoryError where
  | ESuccess
  | EInvalidStatUsed
  | EDuplicateItemType
  | EInvalidItemType
  | EMaxQuantityExceeded
  | ENoItemsToConsume
  | ENotEquippable
  | EAlreadyEquipped
  | ENotEquipped
  | ENotConsumable
  | EDuplicateStat
deriving DecidableEq, Repr

/-- Struct `FBoostAndDuration` from src/Public/Inventory.h (lines 27-39). -/
structure FBoostAndDuration where
  Boost : Int
  Duration : Int
deriving DecidableEq, Repr

/-- Struct `FInventoryItem` from src/Public/Inventory.h (lines 41-87). -/
structure FInventoryItem where
  Name : String
  FlavorText : String
  Thumbnail : Option Nat
  FullImage : Option Nat
  StatsBoostsAndDurations : List (String × FBoostAndDuration)
  Quantity : Int
  MaximumQuantity : Int
  IsEquippable : Bool
  IsEquipped : Bool
  IsConsumable : Bool
deriving DecidableEq, Repr

/-- The state of a `UInventory` component (src/Public/Inventory.h, lines
222-225): the registered stats and the item map. -/
structure UInventory where
  PossibleStats : List String
  Inventory : List (String × FInventoryItem)
deriving DecidableEq, Repr

/-- The state of a freshly constructed `UInventory` component: both
containers empty. -/
def emptyInventory : UInventory :=
  { PossibleStats := [], Inventory := [] }

/-- Lookup in the item map: the value stored at the first entry whose key
equals `k` (`TMap::operator[]` / `TMap::Contains` on a map with unique
keys). -/
def mapLookup (m : List (String × FInventoryItem)) (k : String) :
    Option FInventoryItem :=
  match m with
  | [] => none
  | p :: rest => if p.1 = k then some p.2 else mapLookup rest k

/-- In-place update of the value stored at key `k` (the effect of
`Inventory[k].field = ...` in the C++): rewrites the first entry whose key
equals `k`, leaves everything else alone. -/
def updateItem (m : List (String × FInventoryItem)) (k : String)
    (f : FInventoryItem → FInventoryItem) : List (String × FInventoryItem) :=
  match m with
  | [] => []
  | p :: rest =>
      if p.1 = k then (p.1, f p.2) :: rest else p :: updateItem rest k f

/-- Embedding of `UInventory::AddPossibleStat` (Inventory.cpp, lines 48-56). -/
def AddPossibleStat (inv : UInventory) (PossibleStat : String) :
    InventoryError × UInventory :=
  if PossibleStat ∈ inv.PossibleStats then
    (InventoryError.EDuplicateStat, inv)
  else
    (InventoryError.ESuccess,
      { inv with PossibleStats := inv.PossibleStats ++ [PossibleStat] })

/-- Embedding of `UInventory::GetPossibleStats` (Inventory.cpp, lines 58-68): copies the
stat set into an array; mutates nothing. -/
def GetPossibleStats (inv : UInventory) : List String × UInventory :=
  (inv.PossibleStats, inv)

/-- Embedding of `UInventory::AddInventoryItemType` (Inventory.cpp, lines 70-101).
`Quantity` and `IsEquipped` of the inserted item come from the field
initializers of `FInventoryItem` (Inventory.h lines 70 and 82): 0 and
false. -/
def AddInventoryItemType (inv : UInventory) (Name FlavorText : String)
    (Thumbnail FullImage : Option Nat)
    (StatsBoostsAndDurations : List (String × FBoostAndDuration))
    (MaximumQuantity : Int) (IsConsumable IsEquippable : Bool) :
    InventoryError × UInventory :=
  if StatsBoostsAndDurations.any (fun e => decide (e.1 ∉ inv.PossibleStats))
  then
    (InventoryError.EInvalidStatUsed, inv)
  else
    let inventoryItemToAdd : FInventoryItem :=
      { Name := Name
        FlavorText := FlavorText
        Thumbnail := Thumbnail
        FullImage := FullImage
        StatsBoostsAndDurations := StatsBoostsAndDurations
        Quantity := 0
        MaximumQuantity := MaximumQuantity
        IsEquippable := IsEquippable
        IsEquipped := false
        IsConsumable := IsConsumable }
    if (mapLookup inv.Inventory Name).isSome then
      (InventoryError.EDuplicateItemType, inv)
    else
      (InventoryError.ESuccess,
        { inv with Inventory := inv.Inventory ++ [(Name, inventoryItemToAdd)] })

/-- Embedding of `UInventory::AddItem` (Inventory.cpp, lines 103-114). -/
def AddItem (inv : UInventory) (ItemToAdd : String) (Quantity : Int) :
    InventoryError × UInventory :=
  match mapLookup inv.Inventory ItemToAdd with
  | none => (InventoryError.EInvalidItemType, inv)
  | some item =>
      if item.Quantity + Quantity > item.MaximumQuantity then
        (InventoryError.EMaxQuantityExceeded, inv)
      else
        let m := updateItem inv.Inventory ItemToAdd
          (fun it => { it with Quantity := it.Quantity + Quantity })
        (InventoryError.ESuccess, { inv with Inventory := m })

/-- Embedding of `UInventory::ConsumeItem` (Inventory.cpp, lines 116-130). -/
def ConsumeItem (inv : UInventory) (ItemToConsume : String) (Quantity : Int) :
    InventoryError × UInventory :=
  match mapLookup inv.Inventory ItemToConsume with
  | none => (InventoryError.EInvalidItemType, inv)
  | some item =>
      if item.Quantity = 0 then
        (InventoryError.ENoItemsToConsume, inv)
      else if item.Quantity - Quantity ≤ 0 then
        let m := updateItem inv.Inventory ItemToConsume
          (fun it => { it with Quantity := 0 })
        (InventoryError.ESuccess, { inv with Inventory := m })
      else
        let m := updateItem inv.Inventory ItemToConsume
          (fun it => { it with Quantity := it.Quantity - Quantity })
        (InventoryError.ESuccess, { inv with Inventory := m })

/-- Embedding of `UInventory::EquipItem` (Inventory.cpp, lines 132-146). -/
def EquipItem (inv : UInventory) (ItemToEquip : String) :
    InventoryError × UInventory :=
  match mapLookup inv.Inventory ItemToEquip with
  | none => (InventoryError.EInvalidItemType, inv)
  | some item =>
      if !item.IsEquippable then
        (InventoryError.ENotEquippable, inv)
      else if item.IsEquipped then
        (InventoryError.EAlreadyEquipped, inv)
      else
        let m := updateItem inv.Inventory ItemToEquip
          (fun it => { it with IsEquipped := true })
        (InventoryError.ESuccess, { inv with Inventory := m })

/-- Embedding of `UInventory::UnequipItem` (Inventory.cpp, lines 148-161). -/
def UnequipItem (inv : UInventory) (ItemToUnequip : String) :
    InventoryError × UInventory :=
  match mapLookup inv.Inventory ItemToUnequip with
  | none => (InventoryError.EInvalidItemType, inv)
  | some item =>
      if !item.IsEquippable then
        (InventoryError.ENotEquippable, inv)
      else if !item.IsEquipped then
        (InventoryError.ENotEquipped, inv)
      else
        let m := updateItem inv.Inventory ItemToUnequip
          (fun it => { it with IsEquipped := false })
        (InventoryError.ESuccess, { inv with Inventory := m })

/-- Embedding of `UInventory::GetInventory` (Inventory.cpp, lines 163-173): copies every
stored item into an array; mutates nothing. -/
def GetInventory (inv : UInventory) : List FInventoryItem × UInventory :=
  ((inv.Inventory.map (fun p => p.2)), inv)

/-- Embedding of `UInventory::GetEquippedItems` (Inventory.cpp, lines 17-28): copies
every stored item whose `IsEquipped` flag is set into an array; mutates
nothing. -/
def GetEquippedItems (inv : UInventory) : List FInventoryItem × UInventory :=
  ((inv.Inventory.map (fun p => p.2)).filter (fun it => it.IsEquipped), inv)

/-- One call into the public mutating API of `UInventory`. -/
inductive Op where
  | addStat (name : String)
  | addItemType (name flavorText : String) (thumbnail fullImage : Option Nat)
      (boosts : List (String × FBoostAndDuration)) (maximumQuantity : Int)
      (isConsumable isEquippable : Bool)
  | add (name : String) (quantity : Int)
  | consume (name : String) (quantity : Int)
  | equip (name : String)
  | unequip (name : String)
deriving DecidableEq, Repr

/-- Dispatch one public call on a state. -/
def runOp (inv : UInventory) : Op → InventoryError × UInventory
  | Op.addStat n => AddPossibleStat inv n
  | Op.addItemType n fl th fu b m c e =>
      AddInventoryItemType inv n fl th fu b m c e
  | Op.add n q => AddItem inv n q
  | Op.consume n q => ConsumeItem inv n q
  | Op.equip n => EquipItem inv n
  | Op.unequip n => UnequipItem inv n

/-- Run a sequence of public calls, threading the state and discarding the
returned error codes. -/
def runOps (inv : UInventory) (ops : List Op) : UInventory :=
  ops.foldl (fun s o => (runOp s o).2) inv

/-- Is this call an `AddItem`/`ConsumeItem` call whose quantity argument is
nonnegative? -/
def quantOpOK : Op → Bool
  | Op.add _ q => decide (0 ≤ q)
  | Op.consume _ q => decide (0 ≤ q)
  | _ => false

/-- The equip invariant: every stored item that is equipped is equippable. -/
def EquippedImpliesEquippable (inv : UInventory) : Prop :=
  ∀ p ∈ inv.Inventory, p.2.IsEquipped = true → p.2.IsEquippable = true

/-- Test fixture: a consumable potion, three in stock, at most five. -/
def potionItem : FInventoryItem :=
  { Name := "Potion", FlavorText := "", Thumbnail := none, FullImage := none,
    StatsBoostsAndDurations := [], Quantity := 3, MaximumQuantity := 5,
    IsEquippable := false, IsEquipped := false, IsConsumable := true }

/-- Test fixture: a non-consumable rock, one in stock. -/
def rockItem : FInventoryItem :=
  { Name := "Rock", FlavorText := "", Thumbnail := none, FullImage := none,
    StatsBoostsAndDurations := [], Quantity := 1, MaximumQuantity := 3,
    IsEquippable := false, IsEquipped := false, IsConsumable := false }

/-- Test fixture: an equippable sword, currently unequipped. -/
def swordItem : FInventoryItem :=
  { Name := "Sword", FlavorText := "", Thumbnail := none, FullImage := none,
    StatsBoostsAndDurations := [], Quantity := 1, MaximumQuantity := 1,
    IsEquippable := true, IsEquipped := false, IsConsumable := false }

/-- Test fixture: an inventory holding the potion, the rock and the sword. -/
def sampleState : UInventory :=
  { PossibleStats := [],
    Inventory := [("Potion", potionItem), ("Rock", rockItem), ("Sword", swordItem)] }

/-- Test fixture: the sword as stored after registering it (maximum
quantity 1, equippable) and equipping it. -/
def equippedSwordItem : FInventoryItem :=
  { Name := "Sword", FlavorText := "", Thumbnail := none, FullImage := none,
    StatsBoostsAndDurations := [], Quantity := 0, MaximumQuantity := 1,
    IsEquippable := true, IsEquipped := true, IsConsumable := false }

/-! ### Lemmas about the map primitives -/

theorem mapLookup_updateItem_self (m : List (String × FInventoryItem))
    (k : String) (f : FInventoryItem → FInventoryItem) :
    mapLookup (updateItem m k f) k = (mapLookup m k).map f := by
  induction m with
  | nil => rfl
  | cons p rest ih =>
    by_cases hp : p.1 = k
    · simp [updateItem, mapLookup, hp]
    · simp [updateItem, mapLookup, hp, ih]

theorem mapLookup_updateItem_of_ne (m : List (String × FInventoryItem))
    (k k' : String) (f : FInventoryItem → FInventoryItem) (h : k' ≠ k) :
    mapLookup (updateItem m k f) k' = mapLookup m k' := by
  induction m with
  | nil => rfl
  | cons p rest ih =>
    by_cases hp : p.1 = k
    · have hk : ¬ k = k' := fun hc => h hc.symm
      simp [updateItem, mapLookup, hp, hk]
    · simp [updateItem, mapLookup, hp, ih]

theorem mapLookup_mem (m : List (String × FInventoryItem)) (k : String)
    (it : FInventoryItem) (h : mapLookup m k = some it) : (k, it) ∈ m := by
  induction m with
  | nil => simp [mapLookup] at h
  | cons p rest ih =>
    unfold mapLookup at h
    by_cases hp : p.1 = k
    · rw [if_pos hp] at h
      have hit : p.2 = it := by injection h
      have : (k, it) = p := by rw [← hp, ← hit]
      exact this ▸ List.mem_cons_self p rest
    · rw [if_neg hp] at h
      exact List.mem_cons_of_mem _ (ih h)

theorem mem_updateItem (m : List (String × FInventoryItem)) (k : String)
    (f : FInventoryItem → FInventoryItem) (p : String × FInventoryItem)
    (h : p ∈ updateItem m k f) :
    p ∈ m ∨ ∃ it, mapLookup m k = some it ∧ p = (k, f it) := by
  induction m with
  | nil => simp [updateItem] at h
  | cons q rest ih =>
    unfold updateItem at h
    by_cases hq : q.1 = k
    · rw [if_pos hq] at h
      rcases List.mem_cons.mp h with h1 | h1
      · right
        exact ⟨q.2, by simp [mapLookup, hq], by rw [h1, hq]⟩
      · exact Or.inl (List.mem_cons_of_mem _ h1)
    · rw [if_neg hq] at h
      rcases List.mem_cons.mp h with h1 | h1
      · exact Or.inl (h1 ▸ List.mem_cons_self q rest)
      · rcases ih h1 with h2 | ⟨it, hit, hp⟩
        · exact Or.inl (List.mem_cons_of_mem _ h2)
        · exact Or.inr ⟨it, by simp [mapLookup, hq, hit], hp⟩

theorem mapLookup_append_self (m : List (String × FInventoryItem))
    (k : String) (it : FInventoryItem) (h : mapLookup m k = none) :
    mapLookup (m ++ [(k, it)]) k = some it := by
  induction m with
  | nil => simp [mapLookup]
  | cons p rest ih =>
    unfold mapLookup at h ⊢
    by_cases hp : p.1 = k
    · rw [if_pos hp] at h
      exact absurd h (by simp)
    · rw [if_neg hp] at h
      simpa [hp] using ih h

/-! ### Claim theorems -/

theorem runOp_success_or_id (inv : UInventory) (o : Op) :
    (runOp inv o).1 = InventoryError.ESuccess ∨ (runOp inv o).2 = inv := by
  cases o <;>
    simp only [runOp, AddPossibleStat, AddInventoryItemType, AddItem,
      ConsumeItem, EquipItem, UnequipItem] <;>
    (repeat' split) <;> simp

/-- C2: for every state and every input, `ConsumeItem` never returns
`ENotConsumable`; in particular, consuming a registered item whose
`IsConsumable` flag is false but whose quantity is nonzero returns
`ESuccess`. -/
theorem consumeItem_never_notConsumable (inv : UInventory) (n : String)
    (q : Int) :
    (ConsumeItem inv n q).1 ≠ InventoryError.ENotConsumable ∧
    (∀ it, mapLookup inv.Inventory n = some it → it.IsConsumable = false →
      it.Quantity ≠ 0 → (ConsumeItem inv n q).1 = InventoryError.ESuccess) := by
  constructor
  · unfold ConsumeItem
    cases hm : mapLookup inv.Inventory n with
    | none => simp
    | some item =>
      by_cases h1 : item.Quantity = 0
      · simp [h1]
      · by_cases h2 : item.Quantity - q ≤ 0 <;> simp [h1, h2]
  · intro it hm hc hq
    unfold ConsumeItem
    rw [hm]
    by_cases h2 : it.Quantity - q ≤ 0 <;> simp [hq, h2]

/-- C3: consuming a registered item whose current quantity is nonzero
returns `ESuccess` and sets its quantity to `max 0 (current - q)`. -/
theorem consumeItem_clamps_at_zero (inv : UInventory) (n : String) (q : Int)
    (it : FInventoryItem) (hm : mapLookup inv.Inventory n = some it)
    (hq : it.Quantity ≠ 0) :
    (ConsumeItem inv n q).1 = InventoryError.ESuccess ∧
    (mapLookup (ConsumeItem inv n q).2.Inventory n).map (fun x => x.Quantity)
      = some (max 0 (it.Quantity - q)) := by
  unfold ConsumeItem
  rw [hm]
  by_cases h2 : it.Quantity - q ≤ 0 <;>
    simp [hq, h2, mapLookup_updateItem_self, hm] <;> omega

/-- C4: every public operation that returns anything other than `ESuccess`
leaves the entire inventory state (stat registry and item map) exactly as
it was before the call. -/
theorem failed_op_preserves_state (inv : UInventory) (o : Op)
    (h : (runOp inv o).1 ≠ InventoryError.ESuccess) :
    (runOp inv o).2 = inv :=
  (runOp_success_or_id inv o).resolve_left h

/-- C6: `AddItem` returns `EInvalidItemType` on an unregistered name,
`EMaxQuantityExceeded` (leaving the quantity unchanged) when
`current + q > maximum`, and otherwise `ESuccess` with the quantity
incremented by exactly `q`. -/
theorem addItem_spec (inv : UInventory) (n : String) (q : Int) :
    (mapLookup inv.Inventory n = none →
      (AddItem inv n q).1 = InventoryError.EInvalidItemType ∧
      (AddItem inv n q).2 = inv) ∧
    (∀ it, mapLookup inv.Inventory n = some it →
      it.Quantity + q > it.MaximumQuantity →
      (AddItem inv n q).1 = InventoryError.EMaxQuantityExceeded ∧
      (mapLookup (AddItem inv n q).2.Inventory n).map (fun x => x.Quantity)
        = some it.Quantity) ∧
    (∀ it, mapLookup inv.Inventory n = some it →
      ¬ it.Quantity + q > it.MaximumQuantity →
      (AddItem inv n q).1 = InventoryError.ESuccess ∧
      (mapLookup (AddItem inv n q).2.Inventory n).map (fun x => x.Quantity)
        = some (it.Quantity + q)) := by
  refine ⟨fun hm => ?_, fun it hm hgt => ?_, fun it hm hle => ?_⟩
  · simp [AddItem, hm]
  · simp [AddItem, hm, hgt]
  · simp [AddItem, hm, hle, mapLookup_updateItem_self]

/-- C10: the read queries `GetPossibleStats`, `GetInventory` and
`GetEquippedItems` never modify the state, and `GetEquippedItems` returns
exactly the stored items whose `IsEquipped` flag is true. -/
theorem read_queries_pure (inv : UInventory) :
    (GetPossibleStats inv).2 = inv ∧ (GetInventory inv).2 = inv ∧
    (GetEquippedItems inv).2 = inv ∧
    (∀ it, it ∈ (GetEquippedItems inv).1 ↔
      ((∃ p ∈ inv.Inventory, p.2 = it) ∧ it.IsEquipped = true)) := by
  refine ⟨rfl, rfl, rfl, fun it => ?_⟩
  simp [GetEquippedItems, List.mem_filter, List.mem_map]

/-- C5: `AddInventoryItemType` returns `EInvalidStatUsed` (changing
nothing) when some stat key of the boost map is unregistered, even if the
name also duplicates an existing item; returns `EDuplicateItemType`
(changing nothing) when all stat keys are registered but the name already
exists; otherwise returns `ESuccess` and inserts a new item with quantity 0
and `IsEquipped` false. -/
theorem addInventoryItemType_spec (inv : UInventory) (n fl : String)
    (th fu : Option Nat) (boosts : List (String × FBoostAndDuration))
    (maxQ : Int) (c e : Bool) :
    ((∃ p ∈ boosts, p.1 ∉ inv.PossibleStats) →
      (AddInventoryItemType inv n fl th fu boosts maxQ c e).1
        = InventoryError.EInvalidStatUsed ∧
      (AddInventoryItemType inv n fl th fu boosts maxQ c e).2 = inv) ∧
    ((∀ p ∈ boosts, p.1 ∈ inv.PossibleStats) →
      (mapLookup inv.Inventory n).isSome →
      (AddInventoryItemType inv n fl th fu boosts maxQ c e).1
        = InventoryError.EDuplicateItemType ∧
      (AddInventoryItemType inv n fl th fu boosts maxQ c e).2 = inv) ∧
    ((∀ p ∈ boosts, p.1 ∈ inv.PossibleStats) →
      mapLookup inv.Inventory n = none →
      (AddInventoryItemType inv n fl th fu boosts maxQ c e).1
        = InventoryError.ESuccess ∧
      ∃ it, mapLookup
          (AddInventoryItemType inv n fl th fu boosts maxQ c e).2.Inventory n
          = some it ∧ it.Quantity = 0 ∧ it.IsEquipped = false) := by
  unfold AddInventoryItemType
  cases hany : boosts.any (fun e => decide (e.1 ∉ inv.PossibleStats)) with
  | true =>
    have hbad : ∃ p ∈ boosts, p.1 ∉ inv.PossibleStats := by
      simpa [List.any_eq_true] using hany
    refine ⟨fun _ => ⟨rfl, rfl⟩, fun hall _ => ?_, fun hall _ => ?_⟩ <;>
      (obtain ⟨p, hp, hnp⟩ := hbad; exact absurd (hall p hp) hnp)
  | false =>
    cases hsome : (mapLookup inv.Inventory n).isSome with
    | true =>
      refine ⟨fun hex => ?_, fun _ _ => ⟨rfl, rfl⟩, fun _ hm => ?_⟩
      · have : boosts.any (fun e => decide (e.1 ∉ inv.PossibleStats)) = true := by
          simpa [List.any_eq_true] using hex
        rw [this] at hany
        exact absurd hany (by simp)
      · rw [hm] at hsome
        exact absurd hsome (by simp)
    | false =>
      refine ⟨fun hex => ?_, fun _ hs => ?_, fun _ hm => ?_⟩
      · have : boosts.any (fun e => decide (e.1 ∉ inv.PossibleStats)) = true := by
          simpa [List.any_eq_true] using hex
        rw [this] at hany
        exact absurd hany (by simp)
      · exact absurd hs (by simp)
      · exact ⟨rfl, _, mapLookup_append_self inv.Inventory n _ hm, rfl, rfl⟩

/-- C8: `EquipItem` and `UnequipItem` return `EInvalidItemType` on an
unregistered name; on a registered item both return `ENotEquippable` when
`IsEquippable` is false; `EquipItem` returns `EAlreadyEquipped` (and
`UnequipItem` succeeds, clearing the flag) when the item is equippable and
equipped; `UnequipItem` returns `ENotEquipped` (and `EquipItem` succeeds,
setting the flag) when the item is equippable and unequipped. -/
theorem equip_unequip_spec (inv : UInventory) (n : String) :
    (mapLookup inv.Inventory n = none →
      (EquipItem inv n).1 = InventoryError.EInvalidItemType ∧
      (UnequipItem inv n).1 = InventoryError.EInvalidItemType) ∧
    (∀ it, mapLookup inv.Inventory n = some it →
      (it.IsEquippable = false →
        (EquipItem inv n).1 = InventoryError.ENotEquippable ∧
        (UnequipItem inv n).1 = InventoryError.ENotEquippable) ∧
      (it.IsEquippable = true → it.IsEquipped = true →
        (EquipItem inv n).1 = InventoryError.EAlreadyEquipped ∧
        (UnequipItem inv n).1 = InventoryError.ESuccess ∧
        (mapLookup (UnequipItem inv n).2.Inventory n).map
          (fun x => x.IsEquipped) = some false) ∧
      (it.IsEquippable = true → it.IsEquipped = false →
        (UnequipItem inv n).1 = InventoryError.ENotEquipped ∧
        (EquipItem inv n).1 = InventoryError.ESuccess ∧
        (mapLookup (EquipItem inv n).2.Inventory n).map
          (fun x => x.IsEquipped) = some true)) := by
  refine ⟨fun hm => ?_, fun it hm => ⟨fun hne => ?_, fun he hq => ?_, fun he hq => ?_⟩⟩
  · simp [EquipItem, UnequipItem, hm]
  · simp [EquipItem, UnequipItem, hm, hne]
  · simp [EquipItem, UnequipItem, hm, he, hq, mapLookup_updateItem_self]
  · simp [EquipItem, UnequipItem, hm, he, hq, mapLookup_updateItem_self]

theorem equipItem_success_inv (inv : UInventory) (n : String)
    (hs : (EquipItem inv n).1 = InventoryError.ESuccess) :
    ∃ item, mapLookup inv.Inventory n = some item ∧
      item.IsEquippable = true ∧ item.IsEquipped = false := by
  unfold EquipItem at hs
  cases hm : mapLookup inv.Inventory n with
  | none => rw [hm] at hs; simp at hs
  | some item =>
    rw [hm] at hs
    by_cases h1 : item.IsEquippable
    · by_cases h2 : item.IsEquipped
      · simp [h1, h2] at hs
      · exact ⟨item, rfl, h1, by simpa using h2⟩
    · simp [h1] at hs

theorem equipItem_success_state (inv : UInventory) (n : String)
    (item : FInventoryItem) (hm : mapLookup inv.Inventory n = some item)
    (h1 : item.IsEquippable = true) (h2 : item.IsEquipped = false) :
    EquipItem inv n = (InventoryError.ESuccess,
      { inv with Inventory := updateItem inv.Inventory n fun it => { it with IsEquipped := true } }) := by
  unfold EquipItem
  rw [hm]
  simp [h1, h2]

theorem unequipItem_success_inv (inv : UInventory) (n : String)
    (hs : (UnequipItem inv n).1 = InventoryError.ESuccess) :
    ∃ item, mapLookup inv.Inventory n = some item ∧
      item.IsEquippable = true ∧ item.IsEquipped = true := by
  unfold UnequipItem at hs
  cases hm : mapLookup inv.Inventory n with
  | none => rw [hm] at hs; simp at hs
  | some item =>
    rw [hm] at hs
    by_cases h1 : item.IsEquippable
    · by_cases h2 : item.IsEquipped
      · exact ⟨item, rfl, h1, h2⟩
      · simp [h1, h2] at hs
    · simp [h1] at hs

theorem unequipItem_success_state (inv : UInventory) (n : String)
    (item : FInventoryItem) (hm : mapLookup inv.Inventory n = some item)
    (h1 : item.IsEquippable = true) (h2 : item.IsEquipped = true) :
    UnequipItem inv n = (InventoryError.ESuccess,
      { inv with Inventory := updateItem inv.Inventory n fun it => { it with IsEquipped := false } }) := by
  unfold UnequipItem
  rw [hm]
  simp [h1, h2]

/-- C9: `EquipItem` and `UnequipItem` never change any item's quantity,
whatever they return; on `ESuccess` the stat registry is unchanged, every
other key's entry is untouched, and the named item changes only in its
`IsEquipped` field. -/
theorem equip_unequip_frame (inv : UInventory) (n : String) :
    (∀ k, (mapLookup (EquipItem inv n).2.Inventory k).map (fun x => x.Quantity)
      = (mapLookup inv.Inventory k).map (fun x => x.Quantity)) ∧
    (∀ k, (mapLookup (UnequipItem inv n).2.Inventory k).map (fun x => x.Quantity)
      = (mapLookup inv.Inventory k).map (fun x => x.Quantity)) ∧
    ((EquipItem inv n).1 = InventoryError.ESuccess →
      (EquipItem inv n).2.PossibleStats = inv.PossibleStats ∧
      mapLookup (EquipItem inv n).2.Inventory n
        = (mapLookup inv.Inventory n).map (fun it => { it with IsEquipped := true }) ∧
      (∀ k, k ≠ n → mapLookup (EquipItem inv n).2.Inventory k
        = mapLookup inv.Inventory k)) ∧
    ((UnequipItem inv n).1 = InventoryError.ESuccess →
      (UnequipItem inv n).2.PossibleStats = inv.PossibleStats ∧
      mapLookup (UnequipItem inv n).2.Inventory n
        = (mapLookup inv.Inventory n).map (fun it => { it with IsEquipped := false }) ∧
      (∀ k, k ≠ n → mapLookup (UnequipItem inv n).2.Inventory k
        = mapLookup inv.Inventory k)) := by
  have hq : ∀ (f : FInventoryItem → FInventoryItem),
      (∀ it, (f it).Quantity = it.Quantity) → ∀ k,
      (mapLookup (updateItem inv.Inventory n f) k).map (fun x => x.Quantity)
        = (mapLookup inv.Inventory k).map (fun x => x.Quantity) := by
    intro f hf k
    by_cases hk : k = n
    · subst hk
      rw [mapLookup_updateItem_self]
      cases mapLookup inv.Inventory k <;> simp [hf]
    · rw [mapLookup_updateItem_of_ne _ _ _ _ hk]
  refine ⟨fun k => ?_, fun k => ?_, fun hs => ?_, fun hs => ?_⟩
  · by_cases hsucc : (EquipItem inv n).1 = InventoryError.ESuccess
    · obtain ⟨item, hm, h1, h2⟩ := equipItem_success_inv inv n hsucc
      rw [equipItem_success_state inv n item hm h1 h2]
      exact hq (fun it => { it with IsEquipped := true }) (fun it => rfl) k
    · have hid : (EquipItem inv n).2 = inv :=
        (runOp_success_or_id inv (Op.equip n)).resolve_left hsucc
      rw [hid]
  · by_cases hsucc : (UnequipItem inv n).1 = InventoryError.ESuccess
    · obtain ⟨item, hm, h1, h2⟩ := unequipItem_success_inv inv n hsucc
      rw [unequipItem_success_state inv n item hm h1 h2]
      exact hq (fun it => { it with IsEquipped := false }) (fun it => rfl) k
    · have hid : (UnequipItem inv n).2 = inv :=
        (runOp_success_or_id inv (Op.unequip n)).resolve_left hsucc
      rw [hid]
  · obtain ⟨item, hm, h1, h2⟩ := equipItem_success_inv inv n hs
    rw [equipItem_success_state inv n item hm h1 h2]
    exact ⟨rfl, mapLookup_updateItem_self inv.Inventory n _,
      fun k hk => mapLookup_updateItem_of_ne _ _ _ _ hk⟩
  · obtain ⟨item, hm, h1, h2⟩ := unequipItem_success_inv inv n hs
    rw [unequipItem_success_state inv n item hm h1 h2]
    exact ⟨rfl, mapLookup_updateItem_self inv.Inventory n _,
      fun k hk => mapLookup_updateItem_of_ne _ _ _ _ hk⟩

/-! ### Preservation lemmas for the reachability claims -/

theorem equipInv_updateItem (inv : UInventory) (k : String)
    (f : FInventoryItem → FInventoryItem)
    (h : EquippedImpliesEquippable inv)
    (hf : ∀ it, mapLookup inv.Inventory k = some it →
      (f it).IsEquipped = true → (f it).IsEquippable = true) :
    ∀ p ∈ updateItem inv.Inventory k f,
      p.2.IsEquipped = true → p.2.IsEquippable = true := by
  intro p hp
  rcases mem_updateItem _ _ _ _ hp with hmem | ⟨it, hit, hpe⟩
  · exact h p hmem
  · rw [hpe]
    exact hf it hit

theorem equipInv_step (inv : UInventory) (o : Op)
    (h : EquippedImpliesEquippable inv) :
    EquippedImpliesEquippable (runOp inv o).2 := by
  cases o with
  | addStat s =>
    intro p hp
    have hp2 : p ∈ (AddPossibleStat inv s).2.Inventory := hp
    unfold AddPossibleStat at hp2
    split at hp2 <;> exact h p hp2
  | addItemType n fl th fu b m c e =>
    intro p hp
    have hp2 : p ∈ (AddInventoryItemType inv n fl th fu b m c e).2.Inventory := hp
    unfold AddInventoryItemType at hp2
    split at hp2
    · exact h p hp2
    · split at hp2
      · exact h p hp2
      · rcases List.mem_append.mp hp2 with h1 | h1
        · exact h p h1
        · have hp3 := List.mem_singleton.mp h1
          subst hp3
          intro he
          simp at he
  | add s q =>
    intro p hp
    have hp2 : p ∈ (AddItem inv s q).2.Inventory := hp
    unfold AddItem at hp2
    split at hp2
    · exact h p hp2
    · split at hp2
      · exact h p hp2
      · exact equipInv_updateItem inv s
          (fun it => { it with Quantity := it.Quantity + q }) h
          (fun it hit he => h (s, it) (mapLookup_mem _ _ _ hit) he) p hp2
  | consume s q =>
    intro p hp
    have hp2 : p ∈ (ConsumeItem inv s q).2.Inventory := hp
    unfold ConsumeItem at hp2
    split at hp2
    · exact h p hp2
    · split at hp2
      · exact h p hp2
      · split at hp2
        · exact equipInv_updateItem inv s
            (fun it => { it with Quantity := 0 }) h
            (fun it hit he => h (s, it) (mapLookup_mem _ _ _ hit) he) p hp2
        · exact equipInv_updateItem inv s
            (fun it => { it with Quantity := it.Quantity - q }) h
            (fun it hit he => h (s, it) (mapLookup_mem _ _ _ hit) he) p hp2
  | equip s =>
    by_cases hsucc : (EquipItem inv s).1 = InventoryError.ESuccess
    · obtain ⟨item, hm, h1, h2⟩ := equipItem_success_inv inv s hsucc
      intro p hp
      have hst : (runOp inv (Op.equip s)).2 =
          { inv with Inventory := updateItem inv.Inventory s fun it => { it with IsEquipped := true } } :=
        congrArg Prod.snd (equipItem_success_state inv s item hm h1 h2)
      rw [hst] at hp
      refine equipInv_updateItem inv s _ h (fun it hit he => ?_) p hp
      have hii : it = item := by
        rw [hm] at hit
        exact (Option.some.inj hit).symm
      show it.IsEquippable = true
      rw [hii]
      exact h1
    · have hid : (runOp inv (Op.equip s)).2 = inv :=
        (runOp_success_or_id inv (Op.equip s)).resolve_left hsucc
      rw [hid]
      exact h
  | unequip s =>
    by_cases hsucc : (UnequipItem inv s).1 = InventoryError.ESuccess
    · obtain ⟨item, hm, h1, h2⟩ := unequipItem_success_inv inv s hsucc
      intro p hp
      have hst : (runOp inv (Op.unequip s)).2 =
          { inv with Inventory := updateItem inv.Inventory s fun it => { it with IsEquipped := false } } :=
        congrArg Prod.snd (unequipItem_success_state inv s item hm h1 h2)
      rw [hst] at hp
      refine equipInv_updateItem inv s _ h (fun it hit he => ?_) p hp
      exact absurd he (by simp)
    · have hid : (runOp inv (Op.unequip s)).2 = inv :=
        (runOp_success_or_id inv (Op.unequip s)).resolve_left hsucc
      rw [hid]
      exact h

theorem equipInv_runOps (inv : UInventory) (ops : List Op)
    (h : EquippedImpliesEquippable inv) :
    EquippedImpliesEquippable (runOps inv ops) := by
  induction ops generalizing inv with
  | nil => exact h
  | cons o rest ih => exact ih (runOp inv o).2 (equipInv_step inv o h)

/-- C7: in every state reachable from the freshly constructed (empty)
inventory by a sequence of public operations, every stored item whose
`IsEquipped` flag is true also has `IsEquippable` true. -/
theorem reachable_equipped_implies_equippable (ops : List Op) :
    ∀ p ∈ (runOps emptyInventory ops).Inventory,
      p.2.IsEquipped = true → p.2.IsEquippable = true :=
  equipInv_runOps emptyInventory ops (fun p hp => by simp [emptyInventory] at hp)

theorem addInventoryItemType_success_lookup (inv : UInventory) (n fl : String)
    (th fu : Option Nat) (boosts : List (String × FBoostAndDuration))
    (maxQ : Int) (c e : Bool)
    (hreg : (AddInventoryItemType inv n fl th fu boosts maxQ c e).1
      = InventoryError.ESuccess) :
    ∃ it, mapLookup
        (AddInventoryItemType inv n fl th fu boosts maxQ c e).2.Inventory n
        = some it ∧ it.Quantity = 0 ∧ it.MaximumQuantity = maxQ := by
  unfold AddInventoryItemType at hreg ⊢
  by_cases hany : boosts.any (fun x => decide (x.1 ∉ inv.PossibleStats)) = true
  · rw [if_pos hany] at hreg
    simp at hreg
  · rw [if_neg hany] at hreg ⊢
    by_cases hsome : (mapLookup inv.Inventory n).isSome = true
    · rw [if_pos hsome] at hreg
      simp at hreg
    · rw [if_neg hsome] at hreg ⊢
      have hnone : mapLookup inv.Inventory n = none := by
        cases hx : mapLookup inv.Inventory n
        · rfl
        · rw [hx] at hsome
          simp at hsome
      exact ⟨_, mapLookup_append_self inv.Inventory n _ hnone, rfl, rfl⟩

theorem quantBounds_step (inv : UInventory) (o : Op)
    (ho : quantOpOK o = true) (n : String) (it : FInventoryItem)
    (hit : mapLookup inv.Inventory n = some it)
    (h0 : 0 ≤ it.Quantity) (h1 : it.Quantity ≤ it.MaximumQuantity) :
    ∃ it', mapLookup (runOp inv o).2.Inventory n = some it' ∧
      0 ≤ it'.Quantity ∧ it'.Quantity ≤ it'.MaximumQuantity := by
  cases o with
  | addStat s => simp [quantOpOK] at ho
  | addItemType n2 fl th fu b m c e => simp [quantOpOK] at ho
  | equip s => simp [quantOpOK] at ho
  | unequip s => simp [quantOpOK] at ho
  | add s q =>
    have hq : (0:Int) ≤ q := by simpa [quantOpOK] using ho
    show ∃ it', mapLookup (AddItem inv s q).2.Inventory n = some it' ∧
      0 ≤ it'.Quantity ∧ it'.Quantity ≤ it'.MaximumQuantity
    unfold AddItem
    cases hm : mapLookup inv.Inventory s with
    | none => exact ⟨it, hit, h0, h1⟩
    | some itm =>
      dsimp only
      by_cases hover : itm.Quantity + q > itm.MaximumQuantity
      · rw [if_pos hover]
        exact ⟨it, hit, h0, h1⟩
      · rw [if_neg hover]
        by_cases hsn : s = n
        · subst hsn
          have hii : itm = it := by
            rw [hit] at hm
            exact (Option.some.inj hm).symm
          subst hii
          refine ⟨{ itm with Quantity := itm.Quantity + q }, ?_, ?_, ?_⟩
          · have hself := mapLookup_updateItem_self inv.Inventory s
              (fun x => { x with Quantity := x.Quantity + q })
            rw [hit] at hself
            exact hself
          · show (0:Int) ≤ itm.Quantity + q
            omega
          · show itm.Quantity + q ≤ itm.MaximumQuantity
            omega
        · refine ⟨it, ?_, h0, h1⟩
          have hne := mapLookup_updateItem_of_ne inv.Inventory s n
            (fun x => { x with Quantity := x.Quantity + q })
            (fun hc => hsn hc.symm)
          exact hne.trans hit
  | consume s q =>
    have hq : (0:Int) ≤ q := by simpa [quantOpOK] using ho
    show ∃ it', mapLookup (ConsumeItem inv s q).2.Inventory n = some it' ∧
      0 ≤ it'.Quantity ∧ it'.Quantity ≤ it'.MaximumQuantity
    unfold ConsumeItem
    cases hm : mapLookup inv.Inventory s with
    | none => exact ⟨it, hit, h0, h1⟩
    | some itm =>
      dsimp only
      by_cases hz : itm.Quantity = 0
      · rw [if_pos hz]
        exact ⟨it, hit, h0, h1⟩
      · rw [if_neg hz]
        by_cases hle : itm.Quantity - q ≤ 0
        · rw [if_pos hle]
          by_cases hsn : s = n
          · subst hsn
            have hii : itm = it := by
              rw [hit] at hm
              exact (Option.some.inj hm).symm
            subst hii
            refine ⟨{ itm with Quantity := 0 }, ?_, ?_, ?_⟩
            · have hself := mapLookup_updateItem_self inv.Inventory s
                (fun x => { x with Quantity := 0 })
              rw [hit] at hself
              exact hself
            · show (0:Int) ≤ 0
              omega
            · show (0:Int) ≤ itm.MaximumQuantity
              omega
          · refine ⟨it, ?_, h0, h1⟩
            have hne := mapLookup_updateItem_of_ne inv.Inventory s n
              (fun x => { x with Quantity := 0 })
              (fun hc => hsn hc.symm)
            exact hne.trans hit
        · rw [if_neg hle]
          by_cases hsn : s = n
          · subst hsn
            have hii : itm = it := by
              rw [hit] at hm
              exact (Option.some.inj hm).symm
            subst hii
            refine ⟨{ itm with Quantity := itm.Quantity - q }, ?_, ?_, ?_⟩
            · have hself := mapLookup_updateItem_self inv.Inventory s
                (fun x => { x with Quantity := x.Quantity - q })
              rw [hit] at hself
              exact hself
            · show (0:Int) ≤ itm.Quantity - q
              omega
            · show itm.Quantity - q ≤ itm.MaximumQuantity
              omega
          · refine ⟨it, ?_, h0, h1⟩
            have hne := mapLookup_updateItem_of_ne inv.Inventory s n
              (fun x => { x with Quantity := x.Quantity - q })
              (fun hc => hsn hc.symm)
            exact hne.trans hit

theorem quantBounds_runOps (ops : List Op) :
    ∀ (inv : UInventory) (n : String) (it : FInventoryItem),
      (∀ o ∈ ops, quantOpOK o = true) →
      mapLookup inv.Inventory n = some it →
      0 ≤ it.Quantity → it.Quantity ≤ it.MaximumQuantity →
      ∃ it', mapLookup (runOps inv ops).Inventory n = some it' ∧
        0 ≤ it'.Quantity ∧ it'.Quantity ≤ it'.MaximumQuantity := by
  induction ops with
  | nil => exact fun inv n it _ hit h0 h1 => ⟨it, hit, h0, h1⟩
  | cons o rest ih =>
    intro inv n it hops hit h0 h1
    obtain ⟨it1, hit1, h01, h11⟩ :=
      quantBounds_step inv o (hops o (List.mem_cons_self o rest)) n it hit h0 h1
    exact ih (runOp inv o).2 n it1
      (fun o2 ho2 => hops o2 (List.mem_cons_of_mem o ho2)) hit1 h01 h11

/-- C1 counterexample: with an arbitrary (negative) integer quantity
argument the invariant fails.  Register "Potion" with maximum quantity 5;
`AddItem` with quantity -1 is accepted (the only check is
`current + q > maximum`) and drives the stored quantity to -1 < 0. -/
theorem addItem_negative_quantity_counterexample :
    (AddInventoryItemType emptyInventory "Potion" "" none none [] 5 true false).1
      = InventoryError.ESuccess ∧
    (AddItem (AddInventoryItemType emptyInventory "Potion" "" none none []
        5 true false).2 "Potion" (-1)).1 = InventoryError.ESuccess ∧
    (mapLookup (AddItem (AddInventoryItemType emptyInventory "Potion" "" none
        none [] 5 true false).2 "Potion" (-1)).2.Inventory "Potion").map
      (fun x => x.Quantity) = some (-1) ∧
    ¬ (0:Int) ≤ -1 := by
  refine ⟨rfl, rfl, rfl, by omega⟩

/-- C1 (amended): for an item registered successfully with nonnegative
`MaximumQuantity`, after any sequence of `AddItem`/`ConsumeItem` calls with
nonnegative quantity arguments the item is still present and satisfies
`0 ≤ Quantity ≤ MaximumQuantity`.  (As stated, with arbitrary integer
quantity arguments, the claim is false: see the counterexample.) -/
theorem quantity_bounds_hold (inv : UInventory) (n fl : String)
    (th fu : Option Nat) (boosts : List (String × FBoostAndDuration))
    (maxQ : Int) (c e : Bool) (hmax : 0 ≤ maxQ)
    (hreg : (AddInventoryItemType inv n fl th fu boosts maxQ c e).1
      = InventoryError.ESuccess)
    (ops : List Op) (hops : ∀ o ∈ ops, quantOpOK o = true) :
    ∃ it, mapLookup
        (runOps (AddInventoryItemType inv n fl th fu boosts maxQ c e).2
          ops).Inventory n = some it ∧
      0 ≤ it.Quantity ∧ it.Quantity ≤ it.MaximumQuantity := by
  obtain ⟨it0, hit0, hq0, hm0⟩ :=
    addInventoryItemType_success_lookup inv n fl th fu boosts maxQ c e hreg
  exact quantBounds_runOps ops _ n it0 hops hit0 (by omega) (by omega)

/-! ### Concrete witnesses -/

theorem quantity_bounds_hold_witness :
    ∃ it, mapLookup
        (runOps (AddInventoryItemType emptyInventory "Potion" "" none none []
            5 true false).2
          [Op.add "Potion" 3, Op.consume "Potion" 1]).Inventory "Potion"
        = some it ∧
      0 ≤ it.Quantity ∧ it.Quantity ≤ it.MaximumQuantity :=
  quantity_bounds_hold emptyInventory "Potion" "" none none [] 5 true false
    (by decide) (by decide) [Op.add "Potion" 3, Op.consume "Potion" 1]
    (by decide)

theorem consumeItem_never_notConsumable_witness :
    (ConsumeItem sampleState "Rock" 1).1 ≠ InventoryError.ENotConsumable ∧
    (ConsumeItem sampleState "Rock" 1).1 = InventoryError.ESuccess :=
  ⟨(consumeItem_never_notConsumable sampleState "Rock" 1).1,
   (consumeItem_never_notConsumable sampleState "Rock" 1).2 rockItem
     (by decide) (by decide) (by decide)⟩

theorem consumeItem_clamps_at_zero_witness :
    (ConsumeItem sampleState "Potion" 5).1 = InventoryError.ESuccess ∧
    (mapLookup (ConsumeItem sampleState "Potion" 5).2.Inventory "Potion").map
      (fun x => x.Quantity) = some (max 0 (potionItem.Quantity - 5)) :=
  consumeItem_clamps_at_zero sampleState "Potion" 5 potionItem
    (by decide) (by decide)

theorem failed_op_preserves_state_witness :
    (runOp sampleState (Op.add "Potion" 3)).2 = sampleState :=
  failed_op_preserves_state sampleState (Op.add "Potion" 3) (by decide)

theorem addInventoryItemType_spec_witness :
    ((AddInventoryItemType sampleState "Elixir" "" none none
        [("Stamina", { Boost := 1, Duration := 0 })] 1 true false).1
      = InventoryError.EInvalidStatUsed ∧
     (AddInventoryItemType sampleState "Elixir" "" none none
        [("Stamina", { Boost := 1, Duration := 0 })] 1 true false).2
      = sampleState) ∧
    ((AddInventoryItemType sampleState "Potion" "" none none [] 1 true false).1
      = InventoryError.EDuplicateItemType ∧
     (AddInventoryItemType sampleState "Potion" "" none none [] 1 true false).2
      = sampleState) ∧
    ((AddInventoryItemType sampleState "Elixir" "" none none [] 1 true false).1
      = InventoryError.ESuccess ∧
     ∃ it, mapLookup (AddInventoryItemType sampleState "Elixir" "" none none []
        1 true false).2.Inventory "Elixir" = some it ∧
       it.Quantity = 0 ∧ it.IsEquipped = false) :=
  ⟨(addInventoryItemType_spec sampleState "Elixir" "" none none
      [("Stamina", { Boost := 1, Duration := 0 })] 1 true false).1 (by decide),
   (addInventoryItemType_spec sampleState "Potion" "" none none []
      1 true false).2.1 (by decide) (by decide),
   (addInventoryItemType_spec sampleState "Elixir" "" none none []
      1 true false).2.2 (by decide) (by decide)⟩

theorem addItem_spec_witness :
    ((AddItem sampleState "Elixir" 1).1 = InventoryError.EInvalidItemType ∧
     (AddItem sampleState "Elixir" 1).2 = sampleState) ∧
    ((AddItem sampleState "Potion" 3).1 = InventoryError.EMaxQuantityExceeded ∧
     (mapLookup (AddItem sampleState "Potion" 3).2.Inventory "Potion").map
       (fun x => x.Quantity) = some potionItem.Quantity) ∧
    ((AddItem sampleState "Potion" 2).1 = InventoryError.ESuccess ∧
     (mapLookup (AddItem sampleState "Potion" 2).2.Inventory "Potion").map
       (fun x => x.Quantity) = some (potionItem.Quantity + 2)) :=
  ⟨(addItem_spec sampleState "Elixir" 1).1 (by decide),
   (addItem_spec sampleState "Potion" 3).2.1 potionItem (by decide) (by decide),
   (addItem_spec sampleState "Potion" 2).2.2 potionItem (by decide) (by decide)⟩

theorem reachable_equipped_implies_equippable_witness :
    equippedSwordItem.IsEquippable = true :=
  reachable_equipped_implies_equippable
    [Op.addItemType "Sword" "" none none [] 1 false true, Op.equip "Sword"]
    ("Sword", equippedSwordItem) (by decide) (by decide)

theorem equip_unequip_spec_witness :
    ((EquipItem sampleState "Elixir").1 = InventoryError.EInvalidItemType ∧
     (UnequipItem sampleState "Elixir").1 = InventoryError.EInvalidItemType) ∧
    ((EquipItem sampleState "Rock").1 = InventoryError.ENotEquippable ∧
     (UnequipItem sampleState "Rock").1 = InventoryError.ENotEquippable) ∧
    ((UnequipItem sampleState "Sword").1 = InventoryError.ENotEquipped ∧
     (EquipItem sampleState "Sword").1 = InventoryError.ESuccess ∧
     (mapLookup (EquipItem sampleState "Sword").2.Inventory "Sword").map
       (fun x => x.IsEquipped) = some true) :=
  ⟨(equip_unequip_spec sampleState "Elixir").1 (by decide),
   ((equip_unequip_spec sampleState "Rock").2 rockItem (by decide)).1
     (by decide),
   ((equip_unequip_spec sampleState "Sword").2 swordItem (by decide)).2.2
     (by decide) (by decide)⟩

theorem equip_unequip_frame_witness :
    ((mapLookup (EquipItem sampleState "Sword").2.Inventory "Potion").map
       (fun x => x.Quantity)
      = (mapLookup sampleState.Inventory "Potion").map (fun x => x.Quantity)) ∧
    ((EquipItem sampleState "Sword").2.PossibleStats
      = sampleState.PossibleStats ∧
     mapLookup (EquipItem sampleState "Sword").2.Inventory "Sword"
      = (mapLookup sampleState.Inventory "Sword").map
          (fun it => { it with IsEquipped := true }) ∧
     mapLookup (EquipItem sampleState "Sword").2.Inventory "Rock"
      = mapLookup sampleState.Inventory "Rock") := by
  have h := (equip_unequip_frame sampleState "Sword").2.2.1 (by decide)
  exact ⟨(equip_unequip_frame sampleState "Sword").1 "Potion",
    h.1, h.2.1, h.2.2 "Rock" (by decide)⟩
